import Mathlib

/-!
Verification of the toolchain-resolution core of `src/src/rustup-cli/rustup_mode.rs`:
the bare-triple diagnostics (`update_bare_triple_check`, `default_bare_triple_check`)
and override removal (`override_remove`).  Pure logic is translated directly from the
source; the external collaborators (triple/descriptor parsing from the dist crate,
the settings store, the logging macros) are modelled from the specification, as noted
on each such definition.
-/

namespace Rustup

/-- Modelled from the spec: the CLI's leveled terminal output.  The macros
`warn!`, `info!` and `err!` live in the CLI crate's log module (not under `src/`);
per the spec they emit a leveled message and do not alter control flow, and
`println!` writes a line to stdout.  Each emission is recorded as one event. -/
inductive Event where
  | warn (msg : String)
  | info (msg : String)
  | err (msg : String)
  | out (msg : String)
deriving DecidableEq, Repr

/-- Modelled from the spec: the error kinds of §7.  The `ErrorKind` enum itself is
declared in the crate's `errors.rs`, which is not under `src/`; the spec names
`NoCandidateToolchains`, `ToolchainNotInstalled(name)`, `InvalidToolchainName(name)`
and propagated collaborator errors (kept here with their message). -/
inductive ErrorKind where
  | ToolchainNotInstalled (name : String)
  | InvalidToolchainName (name : String)
  | NoCandidateToolchains
  | Other (msg : String)
deriving DecidableEq, Repr

/-- Modelled from the spec: the fixed vocabulary of recognized architecture tokens
(Triple Vocabulary, §2/§3).  The concrete token tables live in the dist crate, not
under `src/`; a representative finite vocabulary containing the spec's example
tokens is used. -/
def LIST_ARCHS : List String := ["i686", "x86_64"]

/-- Modelled from the spec: the fixed vocabulary of recognized operating-system
tokens (multi-part tokens allowed, §4.1). -/
def LIST_OSES : List String := ["apple-darwin", "pc-windows", "unknown-linux"]

/-- Modelled from the spec: the fixed vocabulary of recognized environment (ABI)
tokens. -/
def LIST_ENVS : List String := ["gnu", "msvc", "musl"]

/-- A partial target triple: each of architecture, OS and environment may be
absent (spec §3 `PartialTriple`; `PartialTargetTriple` in the dist crate). -/
structure PartialTargetTriple where
  arch : Option String
  os : Option String
  env : Option String
deriving DecidableEq, Repr

/-- The components a partial triple specifies, in arch-os-env order. -/
def PartialTargetTriple.components (t : PartialTargetTriple) : List String :=
  t.arch.toList ++ t.os.toList ++ t.env.toList

/-- Join strings with single dashes between them. -/
def dashJoin : List String → String
  | [] => ""
  | [x] => x
  | x :: y :: xs => x ++ "-" ++ dashJoin (y :: xs)

/-- Render a partial triple as the dash-join of its specified components. -/
def PartialTargetTriple.render (t : PartialTargetTriple) : String :=
  dashJoin t.components

/-- All partial triples over the vocabulary that specify at least one component,
enumerated arch-major. -/
def tripleCandidates : List PartialTargetTriple :=
  (none :: LIST_ARCHS.map some).flatMap fun a =>
    (none :: LIST_OSES.map some).flatMap fun o =>
      (none :: LIST_ENVS.map some).flatMap fun e =>
        if a.isSome || o.isSome || e.isSome then [⟨a, o, e⟩] else []

/-- Modelled from the spec: `PartialTargetTriple::from_str` of the dist crate
(not under `src/`).  Per §4.1 the parser classifies dash-delimited segments
against the vocabularies and succeeds exactly when the whole string is the
rendering of a partial triple with at least one recognized component. -/
def PartialTargetTriple.from_str (s : String) : Option PartialTargetTriple :=
  tripleCandidates.find? fun t => t.render == s

/-- A toolchain descriptor: a channel plus a partial triple (spec §3
`ToolchainDescriptor`; `PartialToolchainDesc` in the dist crate). -/
structure PartialToolchainDesc where
  channel : String
  target : PartialTargetTriple
deriving DecidableEq, Repr

/-- Split a character list at dashes into dash-free segments. -/
def splitDashAux : List Char → List (List Char)
  | [] => [[]]
  | c :: cs =>
    if c = '-' then [] :: splitDashAux cs
    else
      match splitDashAux cs with
      | [] => [[c]]
      | x :: xs => (c :: x) :: xs

/-- The dash-delimited segments of a string. -/
def dashSegments (s : String) : List String :=
  (splitDashAux s.data).map fun l => ⟨l⟩

/-- All splits of a string at segment boundaries into a prefix and a suffix,
longest suffix first (the prefix of the first split is empty). -/
def splitChoices (s : String) : List (String × String) :=
  let segs := dashSegments s
  (List.range segs.length).map fun i => (dashJoin (segs.take i), dashJoin (segs.drop i))

/-- Modelled from the spec: `PartialToolchainDesc::from_str` of the dist crate
(not under `src/`).  Per §4.2 the longest recognizable trailing triple is
split off and the remaining prefix is the channel; a string that is entirely
a triple has no channel and is not a descriptor, and the empty string is not
a descriptor.  A nonempty name with no recognizable trailing triple is a
descriptor with an unspecified triple (custom toolchains commonly lack one). -/
def PartialToolchainDesc.from_str (s : String) : Option PartialToolchainDesc :=
  if s = "" then none
  else
    match (splitChoices s).findSome? (fun p =>
        (PartialTargetTriple.from_str p.2).map fun t => (p.1, t)) with
    | some (c, t) => if c = "" then none else some ⟨c, t⟩
    | none => some ⟨s, ⟨none, none, none⟩⟩

/-- Concatenate strings, prefixing each with a dash. -/
def dashPrefixed : List String → String
  | [] => ""
  | x :: xs => "-" ++ x ++ dashPrefixed xs

/-- The dash-prefixed rendering of a partial triple's components, as the
`Display` suffix of a descriptor. -/
def tripleSuffix (t : PartialTargetTriple) : String :=
  dashPrefixed t.components

/-- Modelled from the spec: rendering a descriptor back to a canonical name
(`format!` via the dist crate's `Display`, not under `src/`): the channel
followed by the dash-prefixed specified components. -/
def PartialToolchainDesc.render (d : PartialToolchainDesc) : String :=
  d.channel ++ tripleSuffix d.target

/-- The Toolchain Registry port of spec §6, as consumed by the checked functions:
the ordered installed names (`cfg.list_toolchains()`), the optional default
toolchain's name (`cfg.find_default()` followed by `.name()`), and name lookup
(`cfg.get_toolchain(name, create_parent)`, returning the resolved toolchain, of
which only its name is used here). -/
structure Cfg where
  list_toolchains : List String
  find_default : Option String
  get_toolchain : String → Bool → Except ErrorKind String

/- Message texts of `rustup_mode.rs`, lines 492-534 and 541-557. -/

/-- The warning at lines 492 and 541. -/
def warn_triple_msg : String :=
  "(partial) target triple specified instead of toolchain name"

/-- The single-candidate suggestion at lines 525 and 554-557 (one `println!`). -/
def suggest_msg (n : String) : String :=
  "\nyou may use the following toolchain: " ++ n ++ "\n"

/-- The warning at lines 549-552. -/
def already_default_msg (n : String) : String :=
  "(partial) triple '" ++ n ++ "' resolves to a toolchain that is already default"

/-- `triple_comp_eq` (lines 502-504): a descriptor component matches a given
query component iff it is present and equal. -/
def triple_comp_eq (given : String) (from_desc : Option String) : Bool :=
  match from_desc with
  | some s => s == given
  | none => false

/-- The per-component conjunct of lines 506-517:
`query_comp.as_ref().map_or(true, |s| triple_comp_eq(s, desc_comp.as_ref()))`. -/
def comp_matches (query_comp desc_comp : Option String) : Bool :=
  match query_comp with
  | some s => triple_comp_eq s desc_comp
  | none => true

/-- `triple_matches` (lines 506-517): each query component that is present must
be matched by the descriptor's component. -/
def triple_matches (triple : PartialTargetTriple) (desc : PartialToolchainDesc) : Bool :=
  comp_matches triple.arch desc.target.arch
  && comp_matches triple.os desc.target.os
  && comp_matches triple.env desc.target.env

/-- The candidate-collection loop of `update_bare_triple_check` (lines 496-522):
skip the default toolchain's name, skip names that do not parse as descriptors,
and keep, in order, those whose descriptor matches the query triple. -/
def collect_candidates (triple : PartialTargetTriple) (default_name : String) :
    List String → List String
  | [] => []
  | t :: rest =>
    if t = default_name then collect_candidates triple default_name rest
    else
      match PartialToolchainDesc.from_str t with
      | some desc =>
        if triple_matches triple desc then t :: collect_candidates triple default_name rest
        else collect_candidates triple default_name rest
      | none => collect_candidates triple default_name rest

/-- The candidate list the update-path diagnostic computes for a query triple:
the loop of lines 496-522 run over the installed set, with the default's name
(or `""` when no default is configured, line 495) excluded. -/
def update_candidates (cfg : Cfg) (triple : PartialTargetTriple) : List String :=
  collect_candidates triple (cfg.find_default.getD "") cfg.list_toolchains

/-- `update_bare_triple_check` (lines 490-537), returning the emitted events and
the `Result`.  Structure mirrors the source: on a successful triple parse, warn,
collect candidates, report per the candidate count (the zero case emits an
error-level message), and return `Err(ToolchainNotInstalled(name))`; otherwise
return `Ok(())`. -/
def update_bare_triple_check (cfg : Cfg) (name : String) :
    List Event × Except ErrorKind Unit :=
  match PartialTargetTriple.from_str name with
  | some triple =>
    let candidates := update_candidates cfg triple
    let report : List Event :=
      match candidates with
      | [] => [Event.err "no candidate toolchains found"]
      | [c] => [Event.out (suggest_msg c)]
      | _ =>
        Event.out "\nyou may use one of the following toolchains:"
          :: (candidates.map Event.out ++ [Event.out ""])
    (Event.warn warn_triple_msg :: report,
     Except.error (ErrorKind.ToolchainNotInstalled name))
  | none => ([], Except.ok ())

/-- `default_bare_triple_check` (lines 539-563), returning the emitted events
and the `Result`.  On a successful triple parse, warn; if the default's name
parses as a descriptor, replace its triple by the query (channel unchanged),
render, look the name up without creating, and report either the
already-default warning or the suggestion before failing with
`ToolchainNotInstalled(name)`; a lookup error propagates via `?`. -/
def default_bare_triple_check (cfg : Cfg) (name : String) :
    List Event × Except ErrorKind Unit :=
  match PartialTargetTriple.from_str name with
  | some triple =>
    let default_name := cfg.find_default.getD ""
    match PartialToolchainDesc.from_str default_name with
    | some desc =>
      let maybe_toolchain := PartialToolchainDesc.render { desc with target := triple }
      match cfg.get_toolchain maybe_toolchain false with
      | Except.ok tc =>
        if tc = default_name then
          ([Event.warn warn_triple_msg, Event.warn (already_default_msg name)],
           Except.error (ErrorKind.ToolchainNotInstalled name))
        else
          ([Event.warn warn_triple_msg, Event.out (suggest_msg tc)],
           Except.error (ErrorKind.ToolchainNotInstalled name))
      | Except.error e => ([Event.warn warn_triple_msg], Except.error e)
    | none => ([Event.warn warn_triple_msg], Except.ok ())
  | none => ([], Except.ok ())

/-- The Settings port of spec §6: the ordered directory-to-toolchain override
entries. -/
structure Settings where
  overrides : List (String × String)
deriving DecidableEq, Repr

/-- Modelled from the spec: `remove_override(path) -> bool` of the Settings
collaborator (§6, the settings store is not under `src/`): removes the entry
for `path` and returns whether one existed. -/
def Settings.remove_override (s : Settings) (path : String) : Settings × Bool :=
  if s.overrides.any (fun q => q.1 == path) then
    (⟨s.overrides.filter fun q => !(q.1 == path)⟩, true)
  else (s, false)

/-- The argument surface of `override unset` used by `override_remove`:
whether `--nonexistent` was given, and the value of `--path` when given. -/
structure OverrideArgs where
  nonexistent : Bool
  path : Option String

/-- The hint at lines 959-963. -/
def hint_msg : String :=
  "you may use `--path <path>` option to remove override toolchain for a specific path"

/-- The path-selection step of `override_remove` (lines 925-948): in
nonexistent mode, the keys of the override entries whose directory does not
exist, in stored order (the `filter_map` at lines 927-936); otherwise the
explicit `--path` value, or the current directory. -/
def selected_paths (isDir : String → Bool) (cwd : String) (args : OverrideArgs)
    (s : Settings) : List String :=
  if args.nonexistent then
    s.overrides.filterMap fun q => if isDir q.1 then none else some q.1
  else
    match args.path with
    | some p => [p]
    | none => [cwd]

/-- The removal loop of `override_remove` (lines 950-965): remove each selected
path from the settings store in turn, reporting removal or absence, with the
`--path` hint exactly when neither `--path` nor `--nonexistent` was given. -/
def remove_loop (hintOn : Bool) : List String → Settings → Settings × List Event
  | [], s => (s, [])
  | p :: rest, s =>
    let r := s.remove_override p
    let ev : List Event :=
      if r.2 then [Event.info ("override toolchain for '" ++ p ++ "' removed")]
      else
        Event.info ("no override toolchain for '" ++ p ++ "'")
          :: (if hintOn then [Event.info hint_msg] else [])
    let rr := remove_loop hintOn rest r.1
    (rr.1, ev ++ rr.2)

/-- `override_remove` (lines 924-967), returning the emitted events, the final
settings, and the `Result` (always `Ok(())`: the settings-store and
current-directory ports are modelled per spec §5/§6 as infallible).  In
nonexistent mode an empty selection is reported informationally (lines
938-940). -/
def override_remove (isDir : String → Bool) (cwd : String) (args : OverrideArgs)
    (s : Settings) : List Event × Settings × Except ErrorKind Unit :=
  let paths := selected_paths isDir cwd args s
  let emptyEv : List Event :=
    if args.nonexistent && paths.isEmpty then
      [Event.info "no nonexistent paths detected"]
    else []
  let r := remove_loop (!args.path.isSome && !args.nonexistent) paths s
  (emptyEv ++ r.2, r.1, Except.ok ())

/-! ### Spec-side statement of the subset-match semantics (for refinement) -/

/-- The spec's wording for one component: if the query specifies the component,
the descriptor must specify the same value (absence in the descriptor is a
non-match); if the query does not specify it, it is ignored. -/
def spec_comp_ok (query_comp desc_comp : Option String) : Prop :=
  ∀ a, query_comp = some a → desc_comp = some a

instance spec_comp_ok_dec (qc dc : Option String) : Decidable (spec_comp_ok qc dc) :=
  match qc with
  | none => isTrue fun a h => nomatch h
  | some x =>
    decidable_of_iff (dc = some x)
      ⟨fun h a ha => by
        injection ha with hx
        exact hx ▸ h,
       fun h => h x rfl⟩

/-- The spec's subset-match semantics over all three components. -/
def spec_subset_match (q : PartialTargetTriple) (d : PartialToolchainDesc) : Prop :=
  spec_comp_ok q.arch d.target.arch ∧ spec_comp_ok q.os d.target.os
    ∧ spec_comp_ok q.env d.target.env

instance (q : PartialTargetTriple) (d : PartialToolchainDesc) :
    Decidable (spec_subset_match q d) :=
  inferInstanceAs (Decidable (_ ∧ _ ∧ _))

/-- The spec's candidate predicate: installed names that are not the default's
name, parse as a descriptor, and match the query under subset semantics. -/
def spec_candidate (q : PartialTargetTriple) (default_name t : String) : Bool :=
  (!(t == default_name))
  && (match PartialToolchainDesc.from_str t with
      | some desc => decide (spec_subset_match q desc)
      | none => false)

theorem comp_matches_iff (qc dc : Option String) :
    comp_matches qc dc = true ↔ spec_comp_ok qc dc := by
  cases qc with
  | none => simp [comp_matches, spec_comp_ok]
  | some x =>
    cases dc with
    | none =>
      simp only [comp_matches, triple_comp_eq, spec_comp_ok]
      constructor
      · intro h; cases h
      · intro h; cases h x rfl
    | some y =>
      simp only [comp_matches, triple_comp_eq, beq_iff_eq, spec_comp_ok]
      constructor
      · intro h a ha
        injection ha with hx
        rw [← hx, h]
      · intro h
        have := h x rfl
        injection this with hy

theorem triple_matches_eq_decide (q : PartialTargetTriple) (d : PartialToolchainDesc) :
    triple_matches q d = decide (spec_subset_match q d) := by
  rw [Bool.eq_iff_iff]
  simp only [triple_matches, Bool.and_eq_true, comp_matches_iff, decide_eq_true_eq,
    spec_subset_match]
  tauto

theorem collect_candidates_eq_filter (q : PartialTargetTriple) (d : String)
    (l : List String) :
    collect_candidates q d l = l.filter (spec_candidate q d) := by
  induction l with
  | nil => rfl
  | cons t rest ih =>
    by_cases ht : t = d
    · subst ht
      simp [collect_candidates, spec_candidate, List.filter_cons, ih]
    · cases hp : PartialToolchainDesc.from_str t with
      | none =>
        simp [collect_candidates, ht, spec_candidate, hp, List.filter_cons, ih]
      | some desc =>
        by_cases hm : spec_subset_match q desc
        · simp [collect_candidates, ht, spec_candidate, hp, List.filter_cons, ih,
            triple_matches_eq_decide, hm]
        · simp [collect_candidates, ht, spec_candidate, hp, List.filter_cons, ih,
            triple_matches_eq_decide, hm]

/-- C1: for a fixed query triple, the update-path candidate list is exactly the
subsequence (input order preserved, no sorting or deduplication) of installed
names that parse as descriptors, differ from the default toolchain's name, and
match the query under subset semantics. -/
theorem update_candidates_are_filtered_subsequence (cfg : Cfg) (q : PartialTargetTriple) :
    update_candidates cfg q
      = cfg.list_toolchains.filter (spec_candidate q (cfg.find_default.getD ""))
    ∧ List.Sublist (update_candidates cfg q) cfg.list_toolchains := by
  constructor
  · exact collect_candidates_eq_filter q _ cfg.list_toolchains
  · rw [update_candidates, collect_candidates_eq_filter]
    exact List.filter_sublist cfg.list_toolchains

/-! ### Parser facts and the update-path dichotomy -/

/-- A successfully parsed partial triple renders back to the input string. -/
theorem from_str_render (s : String) (t : PartialTargetTriple)
    (h : PartialTargetTriple.from_str s = some t) : t.render = s := by
  have := List.find?_some h
  simpa using this

/-- A successfully parsed partial triple specifies at least one component. -/
theorem from_str_components_ne_nil (s : String) (t : PartialTargetTriple)
    (h : PartialTargetTriple.from_str s = some t) : t.components ≠ [] := by
  have hmem := List.mem_of_find?_eq_some h
  have hall : ∀ u ∈ tripleCandidates, u.components ≠ [] := by decide
  exact hall t hmem

/-- C2: if the input parses as a partial triple (which always has at least one
component), the update-path check fails with `ToolchainNotInstalled` carrying
the original input in every branch; if it does not parse, the check proceeds
normally with `Ok` and no output. -/
theorem update_check_triple_dichotomy (cfg : Cfg) (name : String) :
    (∀ t, PartialTargetTriple.from_str name = some t →
        (t.arch.isSome ∨ t.os.isSome ∨ t.env.isSome)
        ∧ (update_bare_triple_check cfg name).2
            = Except.error (ErrorKind.ToolchainNotInstalled name))
    ∧ (PartialTargetTriple.from_str name = none →
        update_bare_triple_check cfg name = ([], Except.ok ())) := by
  constructor
  · intro t ht
    refine ⟨?_, ?_⟩
    · have hmem := List.mem_of_find?_eq_some ht
      have hall : ∀ u ∈ tripleCandidates, u.arch.isSome ∨ u.os.isSome ∨ u.env.isSome := by
        decide
      exact hall t hmem
    · simp only [update_bare_triple_check, ht]
  · intro h
    simp only [update_bare_triple_check, h]

/-- A registry with nothing installed, no default, and a lookup that always
fails; used to instantiate hypotheses at concrete inputs. -/
def cfg_empty : Cfg :=
  ⟨[], none, fun _ _ => Except.error (ErrorKind.Other "lookup failed")⟩

/-- Witness for C2 at concrete inputs: a bare triple fails with
`ToolchainNotInstalled`, a channel name passes through with `Ok`. -/
theorem update_check_triple_dichotomy_witness :
    (update_bare_triple_check cfg_empty "x86_64-unknown-linux-gnu").2
        = Except.error (ErrorKind.ToolchainNotInstalled "x86_64-unknown-linux-gnu")
    ∧ update_bare_triple_check cfg_empty "stable" = ([], Except.ok ()) :=
  ⟨((update_check_triple_dichotomy cfg_empty "x86_64-unknown-linux-gnu").1
      ⟨some "x86_64", some "unknown-linux", some "gnu"⟩ (by decide)).2,
   (update_check_triple_dichotomy cfg_empty "stable").2 (by decide)⟩

/-- C3, counterexample: with nothing installed the query yields zero candidates,
the check emits the error-level "no candidate toolchains found" diagnostic, yet
the operation's failure kind is `ToolchainNotInstalled`, not
`NoCandidateToolchains`. -/
theorem update_zero_candidates_counterexample :
    update_candidates cfg_empty ⟨some "x86_64", some "unknown-linux", some "gnu"⟩ = []
    ∧ (update_bare_triple_check cfg_empty "x86_64-unknown-linux-gnu").2
        = Except.error (ErrorKind.ToolchainNotInstalled "x86_64-unknown-linux-gnu")
    ∧ (update_bare_triple_check cfg_empty "x86_64-unknown-linux-gnu").2
        ≠ Except.error ErrorKind.NoCandidateToolchains := by
  refine ⟨rfl, rfl, ?_⟩
  intro h
  have hr : (update_bare_triple_check cfg_empty "x86_64-unknown-linux-gnu").2
      = Except.error (ErrorKind.ToolchainNotInstalled "x86_64-unknown-linux-gnu") := rfl
  rw [hr] at h
  simp at h

/-- C3, amended: when the update-path diagnostic finds zero candidates, it emits
the error-level "no candidate toolchains found" message after the triple
warning, and the operation fails with `ToolchainNotInstalled` carrying the
original input. -/
theorem update_zero_candidates_reports_and_fails (cfg : Cfg) (name : String)
    (t : PartialTargetTriple) (h1 : PartialTargetTriple.from_str name = some t)
    (h0 : update_candidates cfg t = []) :
    update_bare_triple_check cfg name
      = ([Event.warn warn_triple_msg, Event.err "no candidate toolchains found"],
         Except.error (ErrorKind.ToolchainNotInstalled name)) := by
  simp only [update_bare_triple_check, h1, h0]

/-- Witness for the amended C3 at a concrete input. -/
theorem update_zero_candidates_reports_and_fails_witness :
    update_bare_triple_check cfg_empty "x86_64-unknown-linux-gnu"
      = ([Event.warn warn_triple_msg, Event.err "no candidate toolchains found"],
         Except.error (ErrorKind.ToolchainNotInstalled "x86_64-unknown-linux-gnu")) :=
  update_zero_candidates_reports_and_fails cfg_empty "x86_64-unknown-linux-gnu"
    ⟨some "x86_64", some "unknown-linux", some "gnu"⟩ (by decide) rfl

/-! ### The default-set bare-triple path -/

/-- C4: when the input parses as a triple and the default's name parses as a
descriptor, the suggestion is built by replacing the default descriptor's
triple with the query (the channel unchanged), rendering, and resolving with a
non-creating lookup; the resolved name equal to the default yields only the
already-default warning, otherwise the resolved name is suggested, and either
way the command fails with `ToolchainNotInstalled` carrying the input. -/
theorem default_check_merges_and_reports (cfg : Cfg) (name : String)
    (triple : PartialTargetTriple) (desc : PartialToolchainDesc) (tc : String)
    (h1 : PartialTargetTriple.from_str name = some triple)
    (h2 : PartialToolchainDesc.from_str (cfg.find_default.getD "") = some desc)
    (h3 : cfg.get_toolchain
        (PartialToolchainDesc.render { desc with target := triple }) false
      = Except.ok tc) :
    ({ desc with target := triple } : PartialToolchainDesc).channel = desc.channel
    ∧ (default_bare_triple_check cfg name).2
        = Except.error (ErrorKind.ToolchainNotInstalled name)
    ∧ (tc = cfg.find_default.getD "" →
        (default_bare_triple_check cfg name).1
          = [Event.warn warn_triple_msg, Event.warn (already_default_msg name)])
    ∧ (tc ≠ cfg.find_default.getD "" →
        (default_bare_triple_check cfg name).1
          = [Event.warn warn_triple_msg, Event.out (suggest_msg tc)]) := by
  refine ⟨rfl, ?_, ?_, ?_⟩
  · simp only [default_bare_triple_check, h1, h2, h3]
    by_cases hd : tc = cfg.find_default.getD "" <;> simp [hd]
  · intro hd
    simp only [default_bare_triple_check, h1, h2, h3, if_pos hd]
  · intro hd
    simp only [default_bare_triple_check, h1, h2, h3, if_neg hd]

/-- A registry whose default is `stable-x86_64-apple-darwin` and whose
non-creating lookup resolves every name to itself. -/
def cfg_stable : Cfg :=
  ⟨["stable-x86_64-apple-darwin"], some "stable-x86_64-apple-darwin",
   fun n _ => Except.ok n⟩

/-- Witness for C4 at the spec's concrete scenario: default
`stable-x86_64-apple-darwin` and input `x86_64-unknown-linux-gnu` suggest
`stable-x86_64-unknown-linux-gnu`. -/
theorem default_check_merges_and_reports_witness :
    (default_bare_triple_check cfg_stable "x86_64-unknown-linux-gnu").1
      = [Event.warn warn_triple_msg,
         Event.out (suggest_msg "stable-x86_64-unknown-linux-gnu")] :=
  (default_check_merges_and_reports cfg_stable "x86_64-unknown-linux-gnu"
      ⟨some "x86_64", some "unknown-linux", some "gnu"⟩
      ⟨"stable", ⟨some "x86_64", some "apple-darwin", none⟩⟩
      "stable-x86_64-unknown-linux-gnu" (by decide) (by decide) rfl).2.2.2 (by decide)

/-- C9: when the input parses as a triple but the default's name does not parse
as a descriptor — in particular when no default is configured, so the name used
is the empty string — the default-path check returns `Ok` with only the triple
warning emitted: no suggestion and no `ToolchainNotInstalled` failure. -/
theorem default_check_unparsable_default (cfg : Cfg) (name : String)
    (triple : PartialTargetTriple)
    (h1 : PartialTargetTriple.from_str name = some triple) :
    (PartialToolchainDesc.from_str (cfg.find_default.getD "") = none →
      default_bare_triple_check cfg name = ([Event.warn warn_triple_msg], Except.ok ()))
    ∧ (cfg.find_default = none →
      default_bare_triple_check cfg name = ([Event.warn warn_triple_msg], Except.ok ())) := by
  constructor
  · intro h2
    simp only [default_bare_triple_check, h1, h2]
  · intro hd
    have h2 : PartialToolchainDesc.from_str (cfg.find_default.getD "") = none := by
      rw [hd]; rfl
    simp only [default_bare_triple_check, h1, h2]

/-- Witness for C9: no default configured, bare-triple input. -/
theorem default_check_unparsable_default_witness :
    default_bare_triple_check cfg_empty "x86_64-unknown-linux-gnu"
      = ([Event.warn warn_triple_msg], Except.ok ()) :=
  (default_check_unparsable_default cfg_empty "x86_64-unknown-linux-gnu"
      ⟨some "x86_64", some "unknown-linux", some "gnu"⟩ (by decide)).2 rfl

/-- C10: a failing non-creating lookup of the merged name is propagated
unchanged: the only event is the triple warning — no suggestion, no
already-default warning, and no `ToolchainNotInstalled` failure from this
path. -/
theorem default_check_propagates_lookup_error (cfg : Cfg) (name : String)
    (triple : PartialTargetTriple) (desc : PartialToolchainDesc) (e : ErrorKind)
    (h1 : PartialTargetTriple.from_str name = some triple)
    (h2 : PartialToolchainDesc.from_str (cfg.find_default.getD "") = some desc)
    (h3 : cfg.get_toolchain
        (PartialToolchainDesc.render { desc with target := triple }) false
      = Except.error e) :
    default_bare_triple_check cfg name = ([Event.warn warn_triple_msg], Except.error e) := by
  simp only [default_bare_triple_check, h1, h2, h3]

/-- A registry whose default is `stable-x86_64-apple-darwin` and whose lookup
always fails. -/
def cfg_nolookup : Cfg :=
  ⟨["stable-x86_64-apple-darwin"], some "stable-x86_64-apple-darwin",
   fun _ _ => Except.error (ErrorKind.Other "lookup failed")⟩

/-- Witness for C10 at a concrete input. -/
theorem default_check_propagates_lookup_error_witness :
    default_bare_triple_check cfg_nolookup "x86_64-unknown-linux-gnu"
      = ([Event.warn warn_triple_msg],
         Except.error (ErrorKind.Other "lookup failed")) :=
  default_check_propagates_lookup_error cfg_nolookup "x86_64-unknown-linux-gnu"
    ⟨some "x86_64", some "unknown-linux", some "gnu"⟩
    ⟨"stable", ⟨some "x86_64", some "apple-darwin", none⟩⟩
    (ErrorKind.Other "lookup failed") (by decide) (by decide) rfl

/-! ### The suggested name can never be the literal input (C5) -/

theorem dashPrefixed_data (l : List String) (x : String) :
    (dashPrefixed (x :: l)).data = '-' :: (dashJoin (x :: l)).data := by
  have hdash : ("-" : String).data = ['-'] := rfl
  have hnil : ("" : String).data = [] := rfl
  induction l generalizing x with
  | nil => simp [dashPrefixed, dashJoin, String.data_append, hdash, hnil]
  | cons y ys ih =>
    show (("-" ++ x) ++ dashPrefixed (y :: ys)).data
      = '-' :: ((x ++ "-") ++ dashJoin (y :: ys)).data
    rw [String.data_append, String.data_append, String.data_append, ih y, hdash]
    simp [List.append_assoc]

theorem tripleSuffix_data (t : PartialTargetTriple) (h : t.components ≠ []) :
    (tripleSuffix t).data = '-' :: t.render.data := by
  rcases hc : t.components with _ | ⟨x, xs⟩
  · exact absurd hc h
  · rw [tripleSuffix, PartialTargetTriple.render, hc, dashPrefixed_data]

theorem suggest_msg_inj (a b : String) (h : suggest_msg a = suggest_msg b) : a = b := by
  have hd := congrArg String.data h
  simp only [suggest_msg, String.data_append] at hd
  exact String.ext (List.append_cancel_left (List.append_cancel_right hd))

/-- C5: whenever the default-set bare-triple diagnostic triggers (the input
parses as a triple and the default's name parses as a descriptor) and the
merged name resolves to its canonical rendering, the resolved suggestion is
never the literal input string, and no suggestion naming the input is ever
emitted. -/
theorem default_check_never_suggests_input (cfg : Cfg) (name : String)
    (triple : PartialTargetTriple) (desc : PartialToolchainDesc) (tc : String)
    (h1 : PartialTargetTriple.from_str name = some triple)
    (h2 : PartialToolchainDesc.from_str (cfg.find_default.getD "") = some desc)
    (h3 : cfg.get_toolchain
        (PartialToolchainDesc.render { desc with target := triple }) false
      = Except.ok tc)
    (h4 : tc = PartialToolchainDesc.render { desc with target := triple }) :
    tc ≠ name
    ∧ Event.out (suggest_msg name) ∉ (default_bare_triple_check cfg name).1 := by
  have hr : triple.render = name := from_str_render _ _ h1
  have hne : triple.components ≠ [] := from_str_components_ne_nil _ _ h1
  have hdata : tc.data = desc.channel.data ++ '-' :: name.data := by
    have hrend : PartialToolchainDesc.render { desc with target := triple }
        = desc.channel ++ tripleSuffix triple := rfl
    rw [h4, hrend, String.data_append, tripleSuffix_data triple hne, hr]
  have htc : tc ≠ name := by
    intro he
    rw [he] at hdata
    have hlen := congrArg List.length hdata
    simp [List.length_append] at hlen
    omega
  refine ⟨htc, ?_⟩
  by_cases hd : tc = cfg.find_default.getD ""
  · simp only [default_bare_triple_check, h1, h2, h3, if_pos hd]
    intro hmem
    simp at hmem
  · simp only [default_bare_triple_check, h1, h2, h3, if_neg hd]
    intro hmem
    simp only [List.mem_cons, List.not_mem_nil, or_false] at hmem
    rcases hmem with hmem | hmem
    · exact Event.noConfusion hmem
    · exact htc (suggest_msg_inj _ _ (Event.out.inj hmem)).symm

/-- Witness for C5 at the spec's concrete scenario. -/
theorem default_check_never_suggests_input_witness :
    "stable-x86_64-unknown-linux-gnu" ≠ "x86_64-unknown-linux-gnu"
    ∧ Event.out (suggest_msg "x86_64-unknown-linux-gnu")
        ∉ (default_bare_triple_check cfg_stable "x86_64-unknown-linux-gnu").1 :=
  default_check_never_suggests_input cfg_stable "x86_64-unknown-linux-gnu"
    ⟨some "x86_64", some "unknown-linux", some "gnu"⟩
    ⟨"stable", ⟨some "x86_64", some "apple-darwin", none⟩⟩
    "stable-x86_64-unknown-linux-gnu" (by decide) (by decide) rfl (by decide)

/-! ### Override removal -/

theorem filterMap_stale (isDir : String → Bool) (l : List (String × String)) :
    (l.filterMap fun q => if isDir q.1 then none else some q.1)
      = (l.filter fun q => !(isDir q.1)).map Prod.fst := by
  induction l with
  | nil => rfl
  | cons q rest ih =>
    by_cases h : isDir q.1 <;> simp [List.filterMap_cons, List.filter_cons, h, ih]

/-- C6: in nonexistent mode the selected path list is exactly the override
entries, in stored order, whose directory does not exist; and when that list is
empty an informational message is the sole output, the settings are untouched,
and the operation still succeeds. -/
theorem override_nonexistent_selects_stale (isDir : String → Bool) (cwd : String)
    (po : Option String) (s : Settings) :
    selected_paths isDir cwd ⟨true, po⟩ s
      = (s.overrides.filter fun q => !(isDir q.1)).map Prod.fst
    ∧ (selected_paths isDir cwd ⟨true, po⟩ s = [] →
        (override_remove isDir cwd ⟨true, po⟩ s).1
            = [Event.info "no nonexistent paths detected"]
        ∧ (override_remove isDir cwd ⟨true, po⟩ s).2.1 = s
        ∧ (override_remove isDir cwd ⟨true, po⟩ s).2.2 = Except.ok ()) := by
  constructor
  · exact filterMap_stale isDir s.overrides
  · intro hsel
    have h0 : override_remove isDir cwd ⟨true, po⟩ s
        = ([Event.info "no nonexistent paths detected"], s, Except.ok ()) := by
      simp only [override_remove, hsel]
      simp [remove_loop]
    exact ⟨by rw [h0], by rw [h0], by rw [h0]⟩

/-- Witness for C6's empty-selection branch: every directory exists, so nothing
is selected, the message is emitted and the store is untouched. -/
theorem override_nonexistent_selects_stale_witness :
    selected_paths (fun _ => true) "/w" ⟨true, none⟩ ⟨[("/tmp/a", "stable")]⟩ = []
    ∧ (override_remove (fun _ => true) "/w" ⟨true, none⟩ ⟨[("/tmp/a", "stable")]⟩).1
        = [Event.info "no nonexistent paths detected"] :=
  ⟨rfl,
   ((override_nonexistent_selects_stale (fun _ => true) "/w" none
      ⟨[("/tmp/a", "stable")]⟩).2 rfl).1⟩

theorem remove_override_overrides (s : Settings) (p : String) :
    (s.remove_override p).1.overrides = s.overrides.filter fun q => !(q.1 == p) := by
  unfold Settings.remove_override
  by_cases h : s.overrides.any (fun q => q.1 == p)
  · rw [if_pos h]
  · rw [if_neg h]
    symm
    apply List.filter_eq_self.2
    intro q hq
    simp only [List.any_eq_true, not_exists, not_and] at h
    simp [h]
    intro hqp
    exact absurd (by simp [hqp] : (fun q => q.1 == p) q = true) (by simpa using h q hq)

theorem remove_loop_overrides (hintOn : Bool) (paths : List String) (s : Settings) :
    ((remove_loop hintOn paths s).1).overrides
      = s.overrides.filter fun q => decide (q.1 ∉ paths) := by
  induction paths generalizing s with
  | nil => simp [remove_loop]
  | cons p rest ih =>
    show ((remove_loop hintOn rest (s.remove_override p).1).1).overrides = _
    rw [ih, remove_override_overrides, List.filter_filter]
    congr 1
    funext q
    by_cases h1 : q.1 = p <;> by_cases h2 : q.1 ∈ rest <;> simp [h1, h2]

/-- C7: nonexistent-mode pruning is idempotent: with the filesystem unchanged,
a second run right after a first one selects nothing. -/
theorem override_prune_idempotent (isDir : String → Bool) (cwd : String)
    (po po2 : Option String) (s : Settings) :
    selected_paths isDir cwd ⟨true, po2⟩
        ((override_remove isDir cwd ⟨true, po⟩ s).2.1) = [] := by
  have hset : ((override_remove isDir cwd ⟨true, po⟩ s).2.1).overrides
      = s.overrides.filter fun q =>
          decide (q.1 ∉ selected_paths isDir cwd ⟨true, po⟩ s) := by
    show ((remove_loop _ _ s).1).overrides = _
    exact remove_loop_overrides _ _ s
  show ((override_remove isDir cwd ⟨true, po⟩ s).2.1).overrides.filterMap
      (fun q => if isDir q.1 then none else some q.1) = []
  rw [hset]
  apply List.filterMap_eq_nil_iff.2
  intro q hq
  rw [List.mem_filter] at hq
  obtain ⟨hqmem, hqdec⟩ := hq
  by_cases hd : isDir q.1
  · simp [hd]
  · exfalso
    have hnot : q.1 ∉ selected_paths isDir cwd ⟨true, po⟩ s := of_decide_eq_true hqdec
    apply hnot
    show q.1 ∈ s.overrides.filterMap fun r => if isDir r.1 then none else some r.1
    exact List.mem_filterMap.2 ⟨q, hqmem, by simp [hd]⟩

/-- C8: removing an override for a path with no entry is not an error: the
settings are unchanged, the operation succeeds, the absence is reported
informationally, and the `--path` hint is emitted exactly when neither
`--path` nor `--nonexistent` was given. -/
theorem override_remove_missing_entry (isDir : String → Bool) (cwd : String)
    (po : Option String) (s : Settings)
    (h : ∀ q ∈ s.overrides, q.1 ≠ po.getD cwd) :
    (override_remove isDir cwd ⟨false, po⟩ s).2.1 = s
    ∧ (override_remove isDir cwd ⟨false, po⟩ s).2.2 = Except.ok ()
    ∧ (override_remove isDir cwd ⟨false, po⟩ s).1
        = Event.info ("no override toolchain for '" ++ po.getD cwd ++ "'")
            :: (if po.isSome then [] else [Event.info hint_msg]) := by
  have hrem : ∀ tgt : String, (∀ q ∈ s.overrides, q.1 ≠ tgt) →
      s.remove_override tgt = (s, false) := by
    intro tgt htgt
    unfold Settings.remove_override
    rw [if_neg]
    simp only [List.any_eq_true, not_exists, not_and]
    intro q hq
    simp [htgt q hq]
  cases po with
  | none =>
    have hrem := hrem cwd (by simpa using h)
    refine ⟨?_, rfl, ?_⟩
    · show (remove_loop true [cwd] s).1 = s
      simp [remove_loop, hrem]
    · show [] ++ (remove_loop true [cwd] s).2 = _
      simp [remove_loop, hrem]
  | some p =>
    have hrem := hrem p (by simpa using h)
    refine ⟨?_, rfl, ?_⟩
    · show (remove_loop false [p] s).1 = s
      simp [remove_loop, hrem]
    · show [] ++ (remove_loop false [p] s).2 = _
      simp [remove_loop, hrem]

/-- Witness for C8: removing from the current directory, which has no entry,
keeps the single stored entry, reports the absence, and hints at `--path`. -/
theorem override_remove_missing_entry_witness :
    (override_remove (fun _ => true) "/w" ⟨false, none⟩ ⟨[("/tmp/a", "stable")]⟩).2.1
        = ⟨[("/tmp/a", "stable")]⟩
    ∧ (override_remove (fun _ => true) "/w" ⟨false, none⟩ ⟨[("/tmp/a", "stable")]⟩).1
        = [Event.info "no override toolchain for '/w'", Event.info hint_msg] :=
  ⟨(override_remove_missing_entry (fun _ => true) "/w" none ⟨[("/tmp/a", "stable")]⟩
      (by decide)).1,
   by
    rw [(override_remove_missing_entry (fun _ => true) "/w" none ⟨[("/tmp/a", "stable")]⟩
      (by decide)).2.2]
    rfl⟩

end Rustup
